import Mathlib

/-!
# Magnum: cached framebuffer binding and Kahan summation

A shallow embedding of `src/Magnum/AbstractFramebuffer.cpp` (desktop OpenGL
build: neither `MAGNUM_TARGET_GLES` nor `MAGNUM_TARGET_GLES2` is defined) and
of `src/Magnum/Math/Algorithms/KahanSum.h`.

The graphics driver is modelled by the list of calls made into it, in order.
The cached state `Context::current().state().framebuffer` and the framebuffer
object are passed explicitly; a failed `CORRADE_INTERNAL_ASSERT` or
`CORRADE_ASSERT_UNREACHABLE` is an `Except.error`.
-/

namespace Magnum

/-! ## Data model -/

abbrev GLuint := Nat
abbrev GLenum := Nat
abbrev GLbitfield := Nat
abbrev GLint := Int
abbrev GLsizei := Int

/-- Two-component integer vector (`Vector2i`). -/
structure Vector2i where
  x : Int
  y : Int
deriving DecidableEq, Repr

/-- The value a 32-bit `Int` holds after an operation whose exact result is `z`:
two's complement wrap-around into the range from `-2 ^ 31` to `2 ^ 31 - 1`. -/
def wrapInt32 (z : Int) : Int := (z + 2 ^ 31) % 2 ^ 32 - 2 ^ 31

/-- Integer rectangle (`Range2Di`), stored as its minimal and maximal corner; the
coordinates are 32-bit `Int` values. The accessors below are the ones
`AbstractFramebuffer.cpp` calls. -/
structure Range2Di where
  min : Vector2i
  max : Vector2i
deriving DecidableEq, Repr

namespace Range2Di

def left (r : Range2Di) : Int := r.min.x

def bottom (r : Range2Di) : Int := r.min.y

def right (r : Range2Di) : Int := r.max.x

def top (r : Range2Di) : Int := r.max.y

/-- Width `max.x - min.x`, computed in 32-bit `Int`: a difference outside the
range wraps around. -/
def sizeX (r : Range2Di) : Int := wrapInt32 (r.max.x - r.min.x)

/-- Height `max.y - min.y`, computed in 32-bit `Int`: a difference outside the
range wraps around. -/
def sizeY (r : Range2Di) : Int := wrapInt32 (r.max.y - r.min.y)

end Range2Di

/-- Value of the enumerant `GL_READ_FRAMEBUFFER` in the OpenGL headers. -/
def GL_READ_FRAMEBUFFER : GLenum := 0x8CA8

/-- Value of the enumerant `GL_DRAW_FRAMEBUFFER` in the OpenGL headers. -/
def GL_DRAW_FRAMEBUFFER : GLenum := 0x8CA9

/-- The `FramebufferTarget` scoped enum: a `GLenum` underneath, so a value
other than the two enumerators can be produced by a cast. `GLenum(target)` is
the field `raw`. -/
structure FramebufferTarget where
  raw : GLenum
deriving DecidableEq, Repr

namespace FramebufferTarget

def Read : FramebufferTarget := ⟨GL_READ_FRAMEBUFFER⟩

def Draw : FramebufferTarget := ⟨GL_DRAW_FRAMEBUFFER⟩

end FramebufferTarget

/-- The `ObjectFlags` set stored in `_flags`, one boolean per flag: `|=` with a
flag sets its boolean and leaves the other. -/
structure ObjectFlags where
  Created : Bool
  DeleteOnDestruction : Bool
deriving DecidableEq, Repr

/-- The members of `AbstractFramebuffer` the translated functions use. -/
structure AbstractFramebuffer where
  _id : GLuint
  _viewport : Range2Di
  _flags : ObjectFlags
deriving DecidableEq, Repr

/-- Cached framebuffer state (`Implementation::FramebufferState`): the members
the translated functions read or write. -/
structure FramebufferState where
  readBinding : GLuint
  drawBinding : GLuint
  viewport : Range2Di
deriving DecidableEq, Repr

/-- A call into the OpenGL driver, with its arguments in the order of the C
API. Arrays passed by pointer are given as lists. -/
inductive GLCall where
  | glBindFramebuffer (target : GLenum) (framebuffer : GLuint)
  | glViewport (x y width height : Int)
  | glBlitFramebuffer (srcX0 srcY0 srcX1 srcY1 dstX0 dstY0 dstX1 dstY1 : Int)
      (mask : GLbitfield) (filter : GLenum)
  | glBlitNamedFramebuffer (readFramebuffer drawFramebuffer : GLuint)
      (srcX0 srcY0 srcX1 srcY1 dstX0 dstY0 dstX1 dstY1 : Int)
      (mask : GLbitfield) (filter : GLenum)
  | glInvalidateFramebuffer (target : GLenum) (count : GLsizei) (attachments : List GLenum)
  | glInvalidateNamedFramebufferData (framebuffer : GLuint) (count : GLsizei)
      (attachments : List GLenum)
  | glInvalidateNamedFramebufferSubData (framebuffer : GLuint) (count : GLsizei)
      (attachments : List GLenum) (x y width height : Int)
  | glCheckNamedFramebufferStatus (framebuffer : GLuint) (target : GLenum)
  | glCheckNamedFramebufferStatusEXT (framebuffer : GLuint) (target : GLenum)
  | glNamedFramebufferDrawBuffers (framebuffer : GLuint) (count : GLsizei)
      (buffers : List GLenum)
  | glFramebufferDrawBuffersEXT (framebuffer : GLuint) (count : GLsizei)
      (buffers : List GLenum)
  | glNamedFramebufferDrawBuffer (framebuffer : GLuint) (buffer : GLenum)
  | glFramebufferDrawBufferEXT (framebuffer : GLuint) (buffer : GLenum)
  | glNamedFramebufferReadBuffer (framebuffer : GLuint) (buffer : GLenum)
  | glFramebufferReadBufferEXT (framebuffer : GLuint) (buffer : GLenum)
deriving DecidableEq, Repr

/-- What the translated functions reach through `Context::current()`: the
cached framebuffer state, and the driver calls issued so far (oldest first). -/
structure Context where
  framebuffer : FramebufferState
  calls : List GLCall
deriving DecidableEq, Repr

/-- The assertions of the translated functions that can abort the program. -/
inductive AssertFailure where
  /-- `CORRADE_ASSERT_UNREACHABLE()` in `bindImplementationDefault(target)`. -/
  | unreachableTarget
  /-- `rectangle != DisengagedViewport` in `setViewport`. -/
  | rectangleDisengaged
  /-- `_viewport != DisengagedViewport` in `setViewportInternal`. -/
  | viewportDisengaged
  /-- `state.drawBinding == _id` in `setViewportInternal`. -/
  | notDrawBound
deriving DecidableEq, Repr

/-! ## Binding -/

/-- The statement `_flags |= ObjectFlag::Created`. -/
def AbstractFramebuffer.setCreated (self : AbstractFramebuffer) : AbstractFramebuffer :=
  { self with _flags := { self._flags with Created := true } }

/-- Translation of `AbstractFramebuffer::bindImplementationDefault(FramebufferTarget)`. -/
def bindImplementationDefault (self : AbstractFramebuffer) (target : FramebufferTarget)
    (ctx : Context) : Except AssertFailure (AbstractFramebuffer × Context) :=
  let state := ctx.framebuffer
  if target = FramebufferTarget.Read then
    if state.readBinding = self._id then .ok (self, ctx)
    else
      let state1 := { state with readBinding := self._id }
      /- Binding the framebuffer finally creates it -/
      .ok (self.setCreated,
        { framebuffer := state1,
          calls := ctx.calls ++ [GLCall.glBindFramebuffer target.raw self._id] })
  else if target = FramebufferTarget.Draw then
    if state.drawBinding = self._id then .ok (self, ctx)
    else
      let state1 := { state with drawBinding := self._id }
      .ok (self.setCreated,
        { framebuffer := state1,
          calls := ctx.calls ++ [GLCall.glBindFramebuffer target.raw self._id] })
  else .error AssertFailure.unreachableTarget

/-- Translation of `AbstractFramebuffer::bindInternal(FramebufferTarget)`: without
`MAGNUM_TARGET_GLES2` it forwards to `bindImplementationDefault`. -/
def bindInternal (self : AbstractFramebuffer) (target : FramebufferTarget)
    (ctx : Context) : Except AssertFailure (AbstractFramebuffer × Context) :=
  bindImplementationDefault self target ctx

/-- Translation of the overload `AbstractFramebuffer::bindImplementationDefault()`
without argument; the first component is the returned target. -/
def bindImplementationDefault0 (self : AbstractFramebuffer) (ctx : Context) :
    FramebufferTarget × AbstractFramebuffer × Context :=
  let state := ctx.framebuffer
  /- Return target to which the framebuffer is already bound -/
  if state.readBinding = self._id then (FramebufferTarget.Read, self, ctx)
  else if state.drawBinding = self._id then (FramebufferTarget.Draw, self, ctx)
  else
    /- Or bind it, if not already -/
    let state1 := { state with readBinding := self._id }
    (FramebufferTarget.Read, self.setCreated,
      { framebuffer := state1,
        calls := ctx.calls ++
          [GLCall.glBindFramebuffer FramebufferTarget.Read.raw self._id] })

/-- Translation of the overload `AbstractFramebuffer::bindInternal()` without
argument: without `MAGNUM_TARGET_GLES2` it forwards to `bindImplementationDefault()`. -/
def bindInternal0 (self : AbstractFramebuffer) (ctx : Context) :
    FramebufferTarget × AbstractFramebuffer × Context :=
  bindImplementationDefault0 self ctx

/-- Translation of `AbstractFramebuffer::invalidateImplementationDefault(count, attachments)`
(the branch without `MAGNUM_TARGET_GLES2`). -/
def invalidateImplementationDefault (self : AbstractFramebuffer) (count : GLsizei)
    (attachments : List GLenum) (ctx : Context) : AbstractFramebuffer × Context :=
  let r := bindInternal0 self ctx
  (r.2.1, { r.2.2 with
    calls := r.2.2.calls ++ [GLCall.glInvalidateFramebuffer r.1.raw count attachments] })

/-! ## Viewport -/

/-- Translation of `AbstractFramebuffer::setViewportInternal`. The constant
`Implementation::FramebufferState::DisengagedViewport` is a parameter. -/
def setViewportInternal (DisengagedViewport : Range2Di) (self : AbstractFramebuffer)
    (ctx : Context) : Except AssertFailure (AbstractFramebuffer × Context) :=
  let state := ctx.framebuffer
  if self._viewport = DisengagedViewport then .error AssertFailure.viewportDisengaged
  else if state.drawBinding ≠ self._id then .error AssertFailure.notDrawBound
  /- Already up-to-date, nothing to do -/
  else if state.viewport = self._viewport then .ok (self, ctx)
  else
    /- Update the state and viewport -/
    .ok (self,
      { framebuffer := { state with viewport := self._viewport },
        calls := ctx.calls ++ [GLCall.glViewport self._viewport.left self._viewport.bottom
          self._viewport.sizeX self._viewport.sizeY] })

/-- Translation of `AbstractFramebuffer::bind`. -/
def bind (DisengagedViewport : Range2Di) (self : AbstractFramebuffer) (ctx : Context) :
    Except AssertFailure (AbstractFramebuffer × Context) :=
  match bindInternal self FramebufferTarget.Draw ctx with
  | .error e => .error e
  | .ok (self1, ctx1) => setViewportInternal DisengagedViewport self1 ctx1

/-- Translation of `AbstractFramebuffer::setViewport`. -/
def setViewport (DisengagedViewport : Range2Di) (self : AbstractFramebuffer)
    (rectangle : Range2Di) (ctx : Context) :
    Except AssertFailure (AbstractFramebuffer × Context) :=
  if rectangle = DisengagedViewport then .error AssertFailure.rectangleDisengaged
  else
    let self1 := { self with _viewport := rectangle }
    /- Update the viewport if the framebuffer is currently bound -/
    if ctx.framebuffer.drawBinding = self1._id then
      setViewportInternal DisengagedViewport self1 ctx
    else .ok (self1, ctx)

/-! ## Blit -/

abbrev FramebufferBlitMask := GLbitfield
abbrev FramebufferBlitFilter := GLenum

/-- The framebuffer objects of the program, addressed by reference: `blit` takes
two references, which may name the same object. -/
abbrev Objects := Nat → AbstractFramebuffer

/-- Translation of `AbstractFramebuffer::blitImplementationDefault`. -/
def blitImplementationDefault (objects : Objects) (source destination : Nat)
    (sourceRectangle destinationRectangle : Range2Di) (mask : FramebufferBlitMask)
    (filter : FramebufferBlitFilter) (ctx : Context) :
    Except AssertFailure (Objects × Context) :=
  match bindInternal (objects source) FramebufferTarget.Read ctx with
  | .error e => .error e
  | .ok (source1, ctx1) =>
    let objects1 := Function.update objects source source1
    match bindInternal (objects1 destination) FramebufferTarget.Draw ctx1 with
    | .error e => .error e
    | .ok (destination1, ctx2) =>
      .ok (Function.update objects1 destination destination1,
        { ctx2 with calls := ctx2.calls ++ [GLCall.glBlitFramebuffer
            sourceRectangle.left sourceRectangle.bottom
            sourceRectangle.right sourceRectangle.top
            destinationRectangle.left destinationRectangle.bottom
            destinationRectangle.right destinationRectangle.top mask filter] })

/-- Translation of `AbstractFramebuffer::blitImplementationDSA`. -/
def blitImplementationDSA (objects : Objects) (source destination : Nat)
    (sourceRectangle destinationRectangle : Range2Di) (mask : FramebufferBlitMask)
    (filter : FramebufferBlitFilter) (ctx : Context) : Objects × Context :=
  (objects,
    { ctx with calls := ctx.calls ++ [GLCall.glBlitNamedFramebuffer
        (objects source)._id (objects destination)._id
        sourceRectangle.left sourceRectangle.bottom
        sourceRectangle.right sourceRectangle.top
        destinationRectangle.left destinationRectangle.bottom
        destinationRectangle.right destinationRectangle.top mask filter] })

/-! ## Direct-state-access variants

`checkStatus` returns what the driver answers; the driver entry point is a
parameter of the two translations. -/

/-- Translation of `AbstractFramebuffer::invalidateImplementationDSA(count, attachments)`. -/
def invalidateImplementationDSA (self : AbstractFramebuffer) (count : GLsizei)
    (attachments : List GLenum) (ctx : Context) : AbstractFramebuffer × Context :=
  (self, { ctx with calls := ctx.calls ++
    [GLCall.glInvalidateNamedFramebufferData self._id count attachments] })

/-- Translation of the overload
`AbstractFramebuffer::invalidateImplementationDSA(count, attachments, rectangle)`. -/
def invalidateImplementationDSASub (self : AbstractFramebuffer) (count : GLsizei)
    (attachments : List GLenum) (rectangle : Range2Di) (ctx : Context) :
    AbstractFramebuffer × Context :=
  (self, { ctx with calls := ctx.calls ++
    [GLCall.glInvalidateNamedFramebufferSubData self._id count attachments
      rectangle.left rectangle.bottom rectangle.sizeX rectangle.sizeY] })

/-- Translation of `AbstractFramebuffer::checkStatusImplementationDSA`. -/
def checkStatusImplementationDSA (glCheckNamedFramebufferStatus : GLuint → GLenum → GLenum)
    (self : AbstractFramebuffer) (target : FramebufferTarget) (ctx : Context) :
    GLenum × AbstractFramebuffer × Context :=
  (glCheckNamedFramebufferStatus self._id target.raw, self,
    { ctx with calls := ctx.calls ++
      [GLCall.glCheckNamedFramebufferStatus self._id target.raw] })

/-- Translation of `AbstractFramebuffer::checkStatusImplementationDSAEXT`. -/
def checkStatusImplementationDSAEXT
    (glCheckNamedFramebufferStatusEXT : GLuint → GLenum → GLenum)
    (self : AbstractFramebuffer) (target : FramebufferTarget) (ctx : Context) :
    GLenum × AbstractFramebuffer × Context :=
  let self1 := self.setCreated
  (glCheckNamedFramebufferStatusEXT self1._id target.raw, self1,
    { ctx with calls := ctx.calls ++
      [GLCall.glCheckNamedFramebufferStatusEXT self1._id target.raw] })

/-- Translation of `AbstractFramebuffer::drawBuffersImplementationDSA`. -/
def drawBuffersImplementationDSA (self : AbstractFramebuffer) (count : GLsizei)
    (buffers : List GLenum) (ctx : Context) : AbstractFramebuffer × Context :=
  (self, { ctx with calls := ctx.calls ++
    [GLCall.glNamedFramebufferDrawBuffers self._id count buffers] })

/-- Translation of `AbstractFramebuffer::drawBuffersImplementationDSAEXT`. -/
def drawBuffersImplementationDSAEXT (self : AbstractFramebuffer) (count : GLsizei)
    (buffers : List GLenum) (ctx : Context) : AbstractFramebuffer × Context :=
  let self1 := self.setCreated
  (self1, { ctx with calls := ctx.calls ++
    [GLCall.glFramebufferDrawBuffersEXT self1._id count buffers] })

/-- Translation of `AbstractFramebuffer::drawBufferImplementationDSA`. -/
def drawBufferImplementationDSA (self : AbstractFramebuffer) (buffer : GLenum)
    (ctx : Context) : AbstractFramebuffer × Context :=
  (self, { ctx with calls := ctx.calls ++
    [GLCall.glNamedFramebufferDrawBuffer self._id buffer] })

/-- Translation of `AbstractFramebuffer::drawBufferImplementationDSAEXT`. -/
def drawBufferImplementationDSAEXT (self : AbstractFramebuffer) (buffer : GLenum)
    (ctx : Context) : AbstractFramebuffer × Context :=
  let self1 := self.setCreated
  (self1, { ctx with calls := ctx.calls ++
    [GLCall.glFramebufferDrawBufferEXT self1._id buffer] })

/-- Translation of `AbstractFramebuffer::readBufferImplementationDSA`. -/
def readBufferImplementationDSA (self : AbstractFramebuffer) (buffer : GLenum)
    (ctx : Context) : AbstractFramebuffer × Context :=
  (self, { ctx with calls := ctx.calls ++
    [GLCall.glNamedFramebufferReadBuffer self._id buffer] })

/-- Translation of `AbstractFramebuffer::readBufferImplementationDSAEXT`. -/
def readBufferImplementationDSAEXT (self : AbstractFramebuffer) (buffer : GLenum)
    (ctx : Context) : AbstractFramebuffer × Context :=
  let self1 := self.setCreated
  (self1, { ctx with calls := ctx.calls ++
    [GLCall.glFramebufferReadBufferEXT self1._id buffer] })

/-! ## Kahan summation -/

namespace Math.Algorithms

section KahanSum

variable {T : Type} [Add T] [Sub T] [Zero T]

/-- The loop of `kahanSum` over the range `[begin, end)`, given as a list: the
result is the pair of `sum` and `c` when the iterator reaches `end`. -/
def kahanLoop : List T → T → T → T × T
  | [], sum, c => (sum, c)
  | x :: rest, sum, c =>
    let y := x - c
    let t := sum + y
    kahanLoop rest t ((t - sum) - y)

/-- Translation of `Math::Algorithms::kahanSum`. The argument `compensation` is
`none` for `nullptr` and `some c` for a pointer to a variable holding `c`. The
result is the returned sum, and what the variable behind `compensation` holds
afterwards (`none` when there is no such variable). -/
def kahanSum (xs : List T) (sum : T) (compensation : Option T) : T × Option T :=
  let c : T := match compensation with
    | some c0 => c0
    | none => 0
  let r := kahanLoop xs sum c
  match compensation with
  | some _ => (r.1, some r.2)
  | none => (r.1, none)

end KahanSum

/-! ### Single-precision arithmetic on integer values

`Float` is IEEE 754 binary32: a significand of 24 bits, results rounded to the
nearest representable number, ties to the one with even significand. The sum or
difference of two integers is an integer, so on integer-valued numbers addition
and subtraction are the exact integer operation followed by that rounding.
Magnitudes stay far below the overflow threshold `2 ^ 128` here; infinities and
NaN are outside this model. -/

/-- Number of low bits a magnitude `a` has beyond the 24 bits of the significand:
the exponent `e` with `a / 2 ^ e < 2 ^ 24`, found by halving at most `fuel` times. -/
def excessBits : Nat → Nat → Nat
  | 0, _ => 0
  | fuel + 1, a => if a < 2 ^ 24 then 0 else excessBits fuel (a / 2) + 1

/-- Rounding of a magnitude to 24 significant bits, to nearest, ties to even. -/
def roundMagnitude (a : Nat) : Nat :=
  let e := excessBits 128 a
  let q := a / 2 ^ e
  let r := a % 2 ^ e
  if 2 * r < 2 ^ e then q * 2 ^ e
  else if 2 ^ e < 2 * r then (q + 1) * 2 ^ e
  else if q % 2 = 0 then q * 2 ^ e
  else (q + 1) * 2 ^ e

/-- Rounding of an exact integer result to binary32; the sign is kept. -/
def roundNearestEven (z : Int) : Int :=
  if 0 ≤ z then (roundMagnitude z.toNat : Int) else -(roundMagnitude (-z).toNat : Int)

/-- An integer-valued `Float`, given by its value. -/
structure IntegralFloat where
  toInt : Int
deriving DecidableEq, Repr

/-- The value `T(0)`. -/
instance : Zero IntegralFloat := ⟨⟨0⟩⟩

/-- The value `1.0f`. -/
instance : One IntegralFloat := ⟨⟨1⟩⟩

/-- Single-precision addition. -/
instance : Add IntegralFloat := ⟨fun a b => ⟨roundNearestEven (a.toInt + b.toInt)⟩⟩

/-- Single-precision subtraction. -/
instance : Sub IntegralFloat := ⟨fun a b => ⟨roundNearestEven (a.toInt - b.toInt)⟩⟩

end Math.Algorithms

/-! ## Theorems: binding -/

/-- C1. Bind only if not already bound: when the cached binding for the target
(Read or Draw) already equals the id of the object, `bindImplementationDefault`
succeeds and returns the object and the context as they were: no driver call is
added, and the cached bindings, the cached viewport and the flags of the object
are unchanged. -/
theorem bindImplementationDefault_already_bound (self : AbstractFramebuffer)
    (t : FramebufferTarget) (ctx : Context)
    (h : (t = FramebufferTarget.Read ∧ ctx.framebuffer.readBinding = self._id) ∨
      (t = FramebufferTarget.Draw ∧ ctx.framebuffer.drawBinding = self._id)) :
    bindImplementationDefault self t ctx = .ok (self, ctx) ∧
    ∀ r, bindImplementationDefault self t ctx = .ok r →
      r.2.calls = ctx.calls ∧
      r.2.framebuffer.readBinding = ctx.framebuffer.readBinding ∧
      r.2.framebuffer.drawBinding = ctx.framebuffer.drawBinding ∧
      r.2.framebuffer.viewport = ctx.framebuffer.viewport ∧
      r.1._flags = self._flags := by
  have key : bindImplementationDefault self t ctx = .ok (self, ctx) := by
    rcases h with ⟨ht, hb⟩ | ⟨ht, hb⟩
    · subst ht
      simp [bindImplementationDefault, hb]
    · subst ht
      have hne : FramebufferTarget.Draw ≠ FramebufferTarget.Read := by decide
      simp [bindImplementationDefault, hb, hne]
  refine ⟨key, ?_⟩
  intro r hr
  rw [key] at hr
  cases hr
  exact ⟨rfl, rfl, rfl, rfl, rfl⟩

/-- Witness for C1: object 7 while the cached draw binding is already 7. -/
theorem bindImplementationDefault_already_bound_witness :
    bindImplementationDefault ⟨7, ⟨⟨0, 0⟩, ⟨4, 4⟩⟩, ⟨false, false⟩⟩ FramebufferTarget.Draw
        ⟨⟨3, 7, ⟨⟨0, 0⟩, ⟨1, 1⟩⟩⟩, []⟩
      = .ok (⟨7, ⟨⟨0, 0⟩, ⟨4, 4⟩⟩, ⟨false, false⟩⟩, ⟨⟨3, 7, ⟨⟨0, 0⟩, ⟨1, 1⟩⟩⟩, []⟩) :=
  (bindImplementationDefault_already_bound ⟨7, ⟨⟨0, 0⟩, ⟨4, 4⟩⟩, ⟨false, false⟩⟩
    FramebufferTarget.Draw ⟨⟨3, 7, ⟨⟨0, 0⟩, ⟨1, 1⟩⟩⟩, []⟩ (Or.inr ⟨rfl, rfl⟩)).1

/-- C2. For both targets `bindImplementationDefault` succeeds; afterwards the
cached binding for the target is the id of the object, the cached binding of the
other target and the cached viewport are unchanged; and when the cached binding
for the target was different from the id, the driver calls grow by exactly one
`glBindFramebuffer(target, id)` and the object has the Created flag. -/
theorem bindImplementationDefault_binds (self : AbstractFramebuffer) (ctx : Context) :
    (∃ self1 ctx1,
      bindImplementationDefault self FramebufferTarget.Read ctx = .ok (self1, ctx1) ∧
      ctx1.framebuffer.readBinding = self._id ∧
      ctx1.framebuffer.drawBinding = ctx.framebuffer.drawBinding ∧
      ctx1.framebuffer.viewport = ctx.framebuffer.viewport ∧
      (ctx.framebuffer.readBinding ≠ self._id →
        ctx1.calls = ctx.calls ++
          [GLCall.glBindFramebuffer FramebufferTarget.Read.raw self._id] ∧
        self1._flags.Created = true)) ∧
    (∃ self1 ctx1,
      bindImplementationDefault self FramebufferTarget.Draw ctx = .ok (self1, ctx1) ∧
      ctx1.framebuffer.drawBinding = self._id ∧
      ctx1.framebuffer.readBinding = ctx.framebuffer.readBinding ∧
      ctx1.framebuffer.viewport = ctx.framebuffer.viewport ∧
      (ctx.framebuffer.drawBinding ≠ self._id →
        ctx1.calls = ctx.calls ++
          [GLCall.glBindFramebuffer FramebufferTarget.Draw.raw self._id] ∧
        self1._flags.Created = true)) := by
  have hne : FramebufferTarget.Draw ≠ FramebufferTarget.Read := by decide
  constructor
  · by_cases hb : ctx.framebuffer.readBinding = self._id
    · exact ⟨self, ctx, by simp [bindImplementationDefault, hb], hb, rfl, rfl,
        fun h => absurd hb h⟩
    · refine ⟨self.setCreated,
        { framebuffer := { ctx.framebuffer with readBinding := self._id },
          calls := ctx.calls ++
            [GLCall.glBindFramebuffer FramebufferTarget.Read.raw self._id] },
        ?_, rfl, rfl, rfl, fun _ => ⟨rfl, rfl⟩⟩
      simp [bindImplementationDefault, hb]
  · by_cases hb : ctx.framebuffer.drawBinding = self._id
    · exact ⟨self, ctx, by simp [bindImplementationDefault, hb, hne], hb, rfl, rfl,
        fun h => absurd hb h⟩
    · refine ⟨self.setCreated,
        { framebuffer := { ctx.framebuffer with drawBinding := self._id },
          calls := ctx.calls ++
            [GLCall.glBindFramebuffer FramebufferTarget.Draw.raw self._id] },
        ?_, rfl, rfl, rfl, fun _ => ⟨rfl, rfl⟩⟩
      simp [bindImplementationDefault, hb, hne]

/-- C3. The overload of `bindImplementationDefault` without argument returns
Read with nothing changed when the cached read binding is the id of the object;
otherwise Draw with nothing changed when the cached draw binding is the id;
otherwise it sets the cached read binding to the id, issues
`glBindFramebuffer(Read, id)`, marks the object Created and returns Read. In
every case the cached binding of the returned target is the id afterwards and
the cached draw binding is the one from before. -/
theorem bindImplementationDefault0_spec (self : AbstractFramebuffer) (ctx : Context) :
    (ctx.framebuffer.readBinding = self._id →
      bindImplementationDefault0 self ctx = (FramebufferTarget.Read, self, ctx)) ∧
    (ctx.framebuffer.readBinding ≠ self._id → ctx.framebuffer.drawBinding = self._id →
      bindImplementationDefault0 self ctx = (FramebufferTarget.Draw, self, ctx)) ∧
    (ctx.framebuffer.readBinding ≠ self._id → ctx.framebuffer.drawBinding ≠ self._id →
      bindImplementationDefault0 self ctx =
        (FramebufferTarget.Read, self.setCreated,
          { framebuffer := { ctx.framebuffer with readBinding := self._id },
            calls := ctx.calls ++
              [GLCall.glBindFramebuffer FramebufferTarget.Read.raw self._id] })) ∧
    (((bindImplementationDefault0 self ctx).1 = FramebufferTarget.Read ∧
        (bindImplementationDefault0 self ctx).2.2.framebuffer.readBinding = self._id) ∨
      ((bindImplementationDefault0 self ctx).1 = FramebufferTarget.Draw ∧
        (bindImplementationDefault0 self ctx).2.2.framebuffer.drawBinding = self._id)) ∧
    (bindImplementationDefault0 self ctx).2.2.framebuffer.drawBinding =
      ctx.framebuffer.drawBinding := by
  refine ⟨?_, ?_, ?_, ?_, ?_⟩
  · intro h
    simp [bindImplementationDefault0, h]
  · intro h1 h2
    simp [bindImplementationDefault0, h1, h2]
  · intro h1 h2
    simp [bindImplementationDefault0, h1, h2]
  · by_cases h1 : ctx.framebuffer.readBinding = self._id
    · left
      simp [bindImplementationDefault0, h1]
    · by_cases h2 : ctx.framebuffer.drawBinding = self._id
      · right
        simp [bindImplementationDefault0, h1, h2]
      · left
        simp [bindImplementationDefault0, h1, h2]
  · unfold bindImplementationDefault0
    dsimp only
    split_ifs <;> rfl

/-! ## Theorems: viewport -/

/-- A difference that fits in 32 bits is not changed by the wrap-around. -/
theorem wrapInt32_of_fits (z : Int) (h1 : -2 ^ 31 ≤ z) (h2 : z < 2 ^ 31) :
    wrapInt32 z = z := by
  unfold wrapInt32
  omega

/-- The result of the wrap-around is a 32-bit value. -/
theorem wrapInt32_range (z : Int) : -2 ^ 31 ≤ wrapInt32 z ∧ wrapInt32 z < 2 ^ 31 := by
  unfold wrapInt32
  omega

/-- Sizes of the rectangle from `(-2147483648, -1)` to `(2147483647, 2147483647)`:
both differences leave the 32-bit range and wrap to `-1` and `-2147483648`. -/
theorem size_wraps_example :
    Range2Di.sizeX ⟨⟨-2147483648, -1⟩, ⟨2147483647, 2147483647⟩⟩ = -1 ∧
    Range2Di.sizeY ⟨⟨-2147483648, -1⟩, ⟨2147483647, 2147483647⟩⟩ = -2147483648 := by
  decide

/-- Binding object 5 with that rectangle as viewport hands the wrapped sizes to
`glViewport`. -/
theorem bind_wraps_example :
    bind ⟨⟨0, 0⟩, ⟨-1, -1⟩⟩
        ⟨5, ⟨⟨-2147483648, -1⟩, ⟨2147483647, 2147483647⟩⟩, ⟨false, false⟩⟩
        ⟨⟨0, 0, ⟨⟨0, 0⟩, ⟨-1, -1⟩⟩⟩, []⟩ =
      .ok (⟨5, ⟨⟨-2147483648, -1⟩, ⟨2147483647, 2147483647⟩⟩, ⟨true, false⟩⟩,
        ⟨⟨0, 5, ⟨⟨-2147483648, -1⟩, ⟨2147483647, 2147483647⟩⟩⟩,
          [GLCall.glBindFramebuffer GL_DRAW_FRAMEBUFFER 5,
            GLCall.glViewport (-2147483648) (-1) (-1) (-2147483648)]⟩) := by
  rfl

/-- What `bindImplementationDefault` does for the Draw target, in one equation. -/
theorem bindImplementationDefault_draw (self : AbstractFramebuffer) (ctx : Context) :
    bindImplementationDefault self FramebufferTarget.Draw ctx =
      if ctx.framebuffer.drawBinding = self._id then .ok (self, ctx)
      else .ok (self.setCreated,
        { framebuffer := { ctx.framebuffer with drawBinding := self._id },
          calls := ctx.calls ++
            [GLCall.glBindFramebuffer FramebufferTarget.Draw.raw self._id] }) := by
  have hne : FramebufferTarget.Draw ≠ FramebufferTarget.Read := by decide
  simp [bindImplementationDefault, hne]

/-- What `bindImplementationDefault` does for the Read target, in one equation. -/
theorem bindImplementationDefault_read (self : AbstractFramebuffer) (ctx : Context) :
    bindImplementationDefault self FramebufferTarget.Read ctx =
      if ctx.framebuffer.readBinding = self._id then .ok (self, ctx)
      else .ok (self.setCreated,
        { framebuffer := { ctx.framebuffer with readBinding := self._id },
          calls := ctx.calls ++
            [GLCall.glBindFramebuffer FramebufferTarget.Read.raw self._id] }) := by
  simp [bindImplementationDefault]

/-- C4. For an object whose stored viewport is not the disengaged viewport,
`bind` succeeds (so neither assertion of `setViewportInternal` fails);
afterwards the cached draw binding is the id of the object, the cached viewport
is the stored viewport and the cached read binding is unchanged. The driver
calls grow by a `glBindFramebuffer(Draw, id)` when the draw binding differed,
followed by `glViewport(left, bottom, sizeX, sizeY)` of the stored viewport
when the cached viewport differed, and by nothing else: the `glViewport` call is
among the new calls exactly when the cached viewport differed from the stored
one. The sizes are the 32-bit values `sizeX()` and `sizeY()` return. -/
theorem bind_spec (DisengagedViewport : Range2Di) (self : AbstractFramebuffer)
    (ctx : Context) (hv : self._viewport ≠ DisengagedViewport) :
    ∃ self1 ctx1,
      bind DisengagedViewport self ctx = .ok (self1, ctx1) ∧
      ctx1.framebuffer.drawBinding = self._id ∧
      ctx1.framebuffer.viewport = self._viewport ∧
      ctx1.framebuffer.readBinding = ctx.framebuffer.readBinding ∧
      ctx1.calls = ctx.calls ++
        (if ctx.framebuffer.drawBinding = self._id then []
          else [GLCall.glBindFramebuffer FramebufferTarget.Draw.raw self._id]) ++
        (if ctx.framebuffer.viewport = self._viewport then []
          else [GLCall.glViewport self._viewport.left self._viewport.bottom
            self._viewport.sizeX self._viewport.sizeY]) ∧
      (GLCall.glViewport self._viewport.left self._viewport.bottom
          self._viewport.sizeX self._viewport.sizeY ∈ ctx1.calls.drop ctx.calls.length ↔
        ctx.framebuffer.viewport ≠ self._viewport) := by
  unfold bind bindInternal
  rw [bindImplementationDefault_draw]
  by_cases hb : ctx.framebuffer.drawBinding = self._id
  · by_cases hw : ctx.framebuffer.viewport = self._viewport
    · refine ⟨self, ctx, ?_, hb, hw, rfl, ?_, ?_⟩
      · simp [setViewportInternal, hv, hb, hw]
      · simp [hb, hw]
      · simp [hw]
    · refine ⟨self,
        { framebuffer := { ctx.framebuffer with viewport := self._viewport },
          calls := ctx.calls ++ [GLCall.glViewport self._viewport.left self._viewport.bottom
            self._viewport.sizeX self._viewport.sizeY] }, ?_, hb, rfl, rfl, ?_, ?_⟩
      · simp [setViewportInternal, hv, hb, hw]
      · simp [hb, hw]
      · simp [hw]
  · by_cases hw : ctx.framebuffer.viewport = self._viewport
    · refine ⟨self.setCreated,
        { framebuffer := { ctx.framebuffer with drawBinding := self._id },
          calls := ctx.calls ++
            [GLCall.glBindFramebuffer FramebufferTarget.Draw.raw self._id] },
        ?_, rfl, hw, rfl, ?_, ?_⟩
      · simp [setViewportInternal, AbstractFramebuffer.setCreated, hv, hb, hw]
      · simp [hb, hw]
      · simp [hw]
    · refine ⟨self.setCreated,
        { framebuffer := { readBinding := ctx.framebuffer.readBinding,
                           drawBinding := self._id, viewport := self._viewport },
          calls := ctx.calls ++
            [GLCall.glBindFramebuffer FramebufferTarget.Draw.raw self._id] ++
            [GLCall.glViewport self._viewport.left self._viewport.bottom
              self._viewport.sizeX self._viewport.sizeY] },
        ?_, rfl, rfl, rfl, ?_, ?_⟩
      · simp [setViewportInternal, AbstractFramebuffer.setCreated, hv, hb, hw]
      · simp [hb, hw]
      · simp [hw]

/-- Witness for C4: object 5 with viewport (0,0)-(8,6), nothing bound yet. -/
theorem bind_spec_witness :
    ∃ self1 ctx1,
      bind ⟨⟨0, 0⟩, ⟨-1, -1⟩⟩ ⟨5, ⟨⟨0, 0⟩, ⟨8, 6⟩⟩, ⟨false, false⟩⟩
        ⟨⟨0, 0, ⟨⟨0, 0⟩, ⟨-1, -1⟩⟩⟩, []⟩ = .ok (self1, ctx1) ∧
      ctx1.framebuffer.drawBinding = 5 ∧
      ctx1.framebuffer.viewport = ⟨⟨0, 0⟩, ⟨8, 6⟩⟩ ∧
      ctx1.framebuffer.readBinding = 0 ∧
      ctx1.calls = [GLCall.glBindFramebuffer GL_DRAW_FRAMEBUFFER 5, GLCall.glViewport 0 0 8 6] := by
  obtain ⟨self1, ctx1, h1, h2, h3, h4, h5, _⟩ :=
    bind_spec ⟨⟨0, 0⟩, ⟨-1, -1⟩⟩ ⟨5, ⟨⟨0, 0⟩, ⟨8, 6⟩⟩, ⟨false, false⟩⟩
      ⟨⟨0, 0, ⟨⟨0, 0⟩, ⟨-1, -1⟩⟩⟩, []⟩ (by decide)
  exact ⟨self1, ctx1, h1, h2, h3, h4, by rw [h5]; decide⟩

/-- C5. For a rectangle other than the disengaged viewport, `setViewport`
succeeds and stores the rectangle as the viewport of the object (id and flags
stay). When the cached draw binding is the id of the object the cached viewport
is the rectangle afterwards; when it is not, the context is returned unchanged,
so no driver call is issued. In both cases the cached read and draw bindings
are unchanged. -/
theorem setViewport_spec (DisengagedViewport : Range2Di) (self : AbstractFramebuffer)
    (rectangle : Range2Di) (ctx : Context) (hr : rectangle ≠ DisengagedViewport) :
    ∃ ctx1,
      setViewport DisengagedViewport self rectangle ctx =
        .ok ({ self with _viewport := rectangle }, ctx1) ∧
      (ctx.framebuffer.drawBinding = self._id → ctx1.framebuffer.viewport = rectangle) ∧
      (ctx.framebuffer.drawBinding ≠ self._id → ctx1 = ctx) ∧
      ctx1.framebuffer.readBinding = ctx.framebuffer.readBinding ∧
      ctx1.framebuffer.drawBinding = ctx.framebuffer.drawBinding := by
  by_cases hb : ctx.framebuffer.drawBinding = self._id
  · by_cases hw : ctx.framebuffer.viewport = rectangle
    · refine ⟨ctx, ?_, fun _ => hw, fun h => absurd hb h, rfl, rfl⟩
      simp [setViewport, setViewportInternal, hr, hb, hw]
    · refine ⟨
        { framebuffer := { ctx.framebuffer with viewport := rectangle },
          calls := ctx.calls ++ [GLCall.glViewport rectangle.left rectangle.bottom
            rectangle.sizeX rectangle.sizeY] }, ?_, fun _ => rfl, fun h => absurd hb h,
        rfl, rfl⟩
      simp [setViewport, setViewportInternal, hr, hb, hw]
  · refine ⟨ctx, ?_, fun h => absurd h hb, fun _ => rfl, rfl, rfl⟩
    simp [setViewport, hr, hb]

/-- Witness for C5: object 5 is not the one bound for drawing (that is 9), so
only the stored viewport changes. -/
theorem setViewport_spec_witness :
    setViewport ⟨⟨0, 0⟩, ⟨-1, -1⟩⟩ ⟨5, ⟨⟨0, 0⟩, ⟨8, 6⟩⟩, ⟨true, false⟩⟩ ⟨⟨1, 2⟩, ⟨3, 4⟩⟩
        ⟨⟨5, 9, ⟨⟨0, 0⟩, ⟨8, 6⟩⟩⟩, []⟩ =
      .ok (⟨5, ⟨⟨1, 2⟩, ⟨3, 4⟩⟩, ⟨true, false⟩⟩, ⟨⟨5, 9, ⟨⟨0, 0⟩, ⟨8, 6⟩⟩⟩, []⟩) := by
  obtain ⟨ctx1, h1, _, h3, _, _⟩ :=
    setViewport_spec ⟨⟨0, 0⟩, ⟨-1, -1⟩⟩ ⟨5, ⟨⟨0, 0⟩, ⟨8, 6⟩⟩, ⟨true, false⟩⟩ ⟨⟨1, 2⟩, ⟨3, 4⟩⟩
      ⟨⟨5, 9, ⟨⟨0, 0⟩, ⟨8, 6⟩⟩⟩, []⟩ (by decide)
  rw [h1, h3 (by decide)]

/-! ## Theorems: blit and direct state access -/

/-- Binding for reading always succeeds: the object keeps its id, the cached
read binding becomes the id, and the only calls added are
`glBindFramebuffer(Read, id)`. -/
theorem bindInternal_read_result (self : AbstractFramebuffer) (ctx : Context) :
    ∃ self1 binds,
      bindInternal self FramebufferTarget.Read ctx =
        .ok (self1, ⟨⟨self._id, ctx.framebuffer.drawBinding, ctx.framebuffer.viewport⟩,
          ctx.calls ++ binds⟩) ∧
      self1._id = self._id ∧
      ∀ c ∈ binds, c = GLCall.glBindFramebuffer FramebufferTarget.Read.raw self._id := by
  unfold bindInternal
  rw [bindImplementationDefault_read]
  by_cases hb : ctx.framebuffer.readBinding = self._id
  · refine ⟨self, [], ?_, rfl, by simp⟩
    rw [if_pos hb, ← hb]
    simp
  · refine ⟨self.setCreated, [GLCall.glBindFramebuffer FramebufferTarget.Read.raw self._id],
      ?_, rfl, by simp⟩
    rw [if_neg hb]

/-- Binding for drawing always succeeds: the object keeps its id, the cached
draw binding becomes the id, and the only calls added are
`glBindFramebuffer(Draw, id)`. -/
theorem bindInternal_draw_result (self : AbstractFramebuffer) (ctx : Context) :
    ∃ self1 binds,
      bindInternal self FramebufferTarget.Draw ctx =
        .ok (self1, ⟨⟨ctx.framebuffer.readBinding, self._id, ctx.framebuffer.viewport⟩,
          ctx.calls ++ binds⟩) ∧
      self1._id = self._id ∧
      ∀ c ∈ binds, c = GLCall.glBindFramebuffer FramebufferTarget.Draw.raw self._id := by
  unfold bindInternal
  rw [bindImplementationDefault_draw]
  by_cases hb : ctx.framebuffer.drawBinding = self._id
  · refine ⟨self, [], ?_, rfl, by simp⟩
    rw [if_pos hb, ← hb]
    simp
  · refine ⟨self.setCreated, [GLCall.glBindFramebuffer FramebufferTarget.Draw.raw self._id],
      ?_, rfl, by simp⟩
    rw [if_neg hb]

/-- C6. The two blit entry points hand the same arguments to the driver. The
default variant succeeds and ends with one `glBlitFramebuffer` call, preceded
only by `glBindFramebuffer` calls; the DSA variant issues one
`glBlitNamedFramebuffer` call with the ids of source and destination. Both
calls carry left, bottom, right, top of the source rectangle, then of the
destination rectangle, then the mask and the filter. After the default variant
the cached read binding is the id of the source and the cached draw binding the
id of the destination; the DSA variant leaves the cached state and the objects
as they were. -/
theorem blit_variants_same_arguments (objects : Objects) (source destination : Nat)
    (sourceRectangle destinationRectangle : Range2Di) (mask : FramebufferBlitMask)
    (filter : FramebufferBlitFilter) (ctx : Context) :
    (∃ objects1 ctx1 binds,
      blitImplementationDefault objects source destination sourceRectangle
        destinationRectangle mask filter ctx = .ok (objects1, ctx1) ∧
      ctx1.calls = ctx.calls ++ binds ++ [GLCall.glBlitFramebuffer
        sourceRectangle.left sourceRectangle.bottom sourceRectangle.right sourceRectangle.top
        destinationRectangle.left destinationRectangle.bottom
        destinationRectangle.right destinationRectangle.top mask filter] ∧
      (∀ c ∈ binds, ∃ t i, c = GLCall.glBindFramebuffer t i) ∧
      ctx1.framebuffer.readBinding = (objects source)._id ∧
      ctx1.framebuffer.drawBinding = (objects destination)._id) ∧
    (blitImplementationDSA objects source destination sourceRectangle
        destinationRectangle mask filter ctx).2.calls =
      ctx.calls ++ [GLCall.glBlitNamedFramebuffer (objects source)._id (objects destination)._id
        sourceRectangle.left sourceRectangle.bottom sourceRectangle.right sourceRectangle.top
        destinationRectangle.left destinationRectangle.bottom
        destinationRectangle.right destinationRectangle.top mask filter] ∧
    (blitImplementationDSA objects source destination sourceRectangle
        destinationRectangle mask filter ctx).2.framebuffer = ctx.framebuffer ∧
    (blitImplementationDSA objects source destination sourceRectangle
        destinationRectangle mask filter ctx).1 = objects := by
  refine ⟨?_, rfl, rfl, rfl⟩
  obtain ⟨s1, b1, h1, hid1, hb1⟩ := bindInternal_read_result (objects source) ctx
  have hdest : (Function.update objects source s1 destination)._id
      = (objects destination)._id := by
    by_cases hsd : destination = source
    · subst hsd
      simp [hid1]
    · simp [Function.update_noteq hsd]
  obtain ⟨d1, b2, h2, _, hb2⟩ := bindInternal_draw_result
    (Function.update objects source s1 destination)
    ⟨⟨(objects source)._id, ctx.framebuffer.drawBinding, ctx.framebuffer.viewport⟩,
      ctx.calls ++ b1⟩
  dsimp only at h2
  unfold blitImplementationDefault
  rw [h1]
  dsimp only
  rw [h2]
  refine ⟨_, _, b1 ++ b2, rfl, ?_, ?_, ?_, ?_⟩
  · simp
  · intro c hc
    rcases List.mem_append.1 hc with h | h
    · exact ⟨_, _, hb1 c h⟩
    · exact ⟨_, _, hb2 c h⟩
  · rfl
  · exact hdest

/-- C7. The direct-state-access variants (`checkStatus`, `drawBuffers`,
`drawBuffer`, `readBuffer` and both `invalidate` overloads) return the object as
it was, leave the cached framebuffer state as it was and add exactly one driver
call, which is not `glBindFramebuffer`. The DSAEXT variants (`checkStatus`,
`drawBuffers`, `drawBuffer`, `readBuffer`) do the same except that the returned
object has the Created flag set, with id, viewport and the other flag as before.
`checkStatus` returns what the driver answers for the id and the target. -/
theorem dsa_variants_keep_cache (self : AbstractFramebuffer) (ctx : Context)
    (target : FramebufferTarget) (count : GLsizei) (list : List GLenum) (buffer : GLenum)
    (rectangle : Range2Di) (driver : GLuint → GLenum → GLenum) :
    ((checkStatusImplementationDSA driver self target ctx).1 = driver self._id target.raw ∧
      (checkStatusImplementationDSA driver self target ctx).2.1 = self ∧
      (checkStatusImplementationDSA driver self target ctx).2.2.framebuffer = ctx.framebuffer ∧
      ∃ c, (checkStatusImplementationDSA driver self target ctx).2.2.calls = ctx.calls ++ [c] ∧
        ∀ t i, c ≠ GLCall.glBindFramebuffer t i) ∧
    ((drawBuffersImplementationDSA self count list ctx).1 = self ∧
      (drawBuffersImplementationDSA self count list ctx).2.framebuffer = ctx.framebuffer ∧
      ∃ c, (drawBuffersImplementationDSA self count list ctx).2.calls = ctx.calls ++ [c] ∧
        ∀ t i, c ≠ GLCall.glBindFramebuffer t i) ∧
    ((drawBufferImplementationDSA self buffer ctx).1 = self ∧
      (drawBufferImplementationDSA self buffer ctx).2.framebuffer = ctx.framebuffer ∧
      ∃ c, (drawBufferImplementationDSA self buffer ctx).2.calls = ctx.calls ++ [c] ∧
        ∀ t i, c ≠ GLCall.glBindFramebuffer t i) ∧
    ((readBufferImplementationDSA self buffer ctx).1 = self ∧
      (readBufferImplementationDSA self buffer ctx).2.framebuffer = ctx.framebuffer ∧
      ∃ c, (readBufferImplementationDSA self buffer ctx).2.calls = ctx.calls ++ [c] ∧
        ∀ t i, c ≠ GLCall.glBindFramebuffer t i) ∧
    ((invalidateImplementationDSA self count list ctx).1 = self ∧
      (invalidateImplementationDSA self count list ctx).2.framebuffer = ctx.framebuffer ∧
      ∃ c, (invalidateImplementationDSA self count list ctx).2.calls = ctx.calls ++ [c] ∧
        ∀ t i, c ≠ GLCall.glBindFramebuffer t i) ∧
    ((invalidateImplementationDSASub self count list rectangle ctx).1 = self ∧
      (invalidateImplementationDSASub self count list rectangle ctx).2.framebuffer
        = ctx.framebuffer ∧
      ∃ c, (invalidateImplementationDSASub self count list rectangle ctx).2.calls
          = ctx.calls ++ [c] ∧
        ∀ t i, c ≠ GLCall.glBindFramebuffer t i) ∧
    ((checkStatusImplementationDSAEXT driver self target ctx).1 = driver self._id target.raw ∧
      (checkStatusImplementationDSAEXT driver self target ctx).2.1 =
        { self with _flags := { self._flags with Created := true } } ∧
      (checkStatusImplementationDSAEXT driver self target ctx).2.2.framebuffer
        = ctx.framebuffer ∧
      ∃ c, (checkStatusImplementationDSAEXT driver self target ctx).2.2.calls
          = ctx.calls ++ [c] ∧
        ∀ t i, c ≠ GLCall.glBindFramebuffer t i) ∧
    ((drawBuffersImplementationDSAEXT self count list ctx).1 =
        { self with _flags := { self._flags with Created := true } } ∧
      (drawBuffersImplementationDSAEXT self count list ctx).2.framebuffer = ctx.framebuffer ∧
      ∃ c, (drawBuffersImplementationDSAEXT self count list ctx).2.calls = ctx.calls ++ [c] ∧
        ∀ t i, c ≠ GLCall.glBindFramebuffer t i) ∧
    ((drawBufferImplementationDSAEXT self buffer ctx).1 =
        { self with _flags := { self._flags with Created := true } } ∧
      (drawBufferImplementationDSAEXT self buffer ctx).2.framebuffer = ctx.framebuffer ∧
      ∃ c, (drawBufferImplementationDSAEXT self buffer ctx).2.calls = ctx.calls ++ [c] ∧
        ∀ t i, c ≠ GLCall.glBindFramebuffer t i) ∧
    ((readBufferImplementationDSAEXT self buffer ctx).1 =
        { self with _flags := { self._flags with Created := true } } ∧
      (readBufferImplementationDSAEXT self buffer ctx).2.framebuffer = ctx.framebuffer ∧
      ∃ c, (readBufferImplementationDSAEXT self buffer ctx).2.calls = ctx.calls ++ [c] ∧
        ∀ t i, c ≠ GLCall.glBindFramebuffer t i) := by
  refine ⟨⟨rfl, rfl, rfl, _, rfl, ?_⟩, ⟨rfl, rfl, _, rfl, ?_⟩, ⟨rfl, rfl, _, rfl, ?_⟩,
    ⟨rfl, rfl, _, rfl, ?_⟩, ⟨rfl, rfl, _, rfl, ?_⟩, ⟨rfl, rfl, _, rfl, ?_⟩,
    ⟨rfl, rfl, rfl, _, rfl, ?_⟩, ⟨rfl, rfl, _, rfl, ?_⟩, ⟨rfl, rfl, _, rfl, ?_⟩,
    ⟨rfl, rfl, _, rfl, ?_⟩⟩ <;> intro t i h <;> cases h

/-! ## Theorems: Kahan summation -/

namespace Math.Algorithms

section Loop

variable {T : Type} [Add T] [Sub T]

/-- The loop over a concatenation is the loop over the second part, started
from the sum and compensation the first part ends with. -/
theorem kahanLoop_append (xs ys : List T) (sum c : T) :
    kahanLoop (xs ++ ys) sum c =
      kahanLoop ys (kahanLoop xs sum c).1 (kahanLoop xs sum c).2 := by
  induction xs generalizing sum c with
  | nil => rfl
  | cons x rest ih =>
    simp only [List.cons_append, kahanLoop]
    exact ih _ _

end Loop

section Piecewise

variable {T : Type} [Add T] [Sub T] [Zero T]

/-- With a non-null pointer `kahanSum` returns the first component of the loop
result and leaves the second one behind the pointer. -/
theorem kahanSum_some (xs : List T) (sum c : T) :
    kahanSum xs sum (some c) = ((kahanLoop xs sum c).1, some (kahanLoop xs sum c).2) := rfl

/-- With a null pointer `kahanSum` runs the loop from compensation zero. -/
theorem kahanSum_none (xs : List T) (sum : T) :
    kahanSum xs sum none = ((kahanLoop xs sum 0).1, none) := rfl

/-- C8. `kahanSum` can be applied piecewise: running it on `xs` with initial sum
`s` and a pointer to compensation `c`, then on `ys` with the returned sum and the
compensation written back, gives the same returned sum and the same final
compensation as one call on `xs ++ ys`. In particular feeding the elements of a
range one at a time, as in the documented loop over pixels, equals one call on
the whole range. -/
theorem kahanSum_piecewise (xs ys : List T) (s c : T) :
    kahanSum ys (kahanSum xs s (some c)).1 (kahanSum xs s (some c)).2 =
      kahanSum (xs ++ ys) s (some c) ∧
    xs.foldl (fun acc x => kahanSum [x] acc.1 acc.2) (s, some c) =
      kahanSum xs s (some c) := by
  constructor
  · simp only [kahanSum_some, kahanLoop_append]
  · induction xs generalizing s c with
    | nil => rfl
    | cons x rest ih =>
      rw [List.foldl_cons]
      exact ih _ _

/-- C10. With a null pointer the initial compensation is zero: the returned sum
is the one of a call with a pointer to a variable holding 0, and nothing is
written. With a pointer to a variable holding `c`, the loop starts from `c` and
the variable holds the compensation of the loop afterwards: `c` itself for an
empty range (and the sum is returned unchanged), and for a range ending in `x`
the value `(t - sum1) - y` computed by the last iteration, where `sum1`, `c1` are
the sum and compensation before it, `y = x - c1` and `t = sum1 + y`; that `t` is
the returned sum. -/
theorem kahanSum_compensation_pointer (xs : List T) (s c x : T) :
    (kahanSum xs s none).1 = (kahanSum xs s (some 0)).1 ∧
    (kahanSum xs s none).2 = none ∧
    kahanSum xs s (some c) = ((kahanLoop xs s c).1, some (kahanLoop xs s c).2) ∧
    kahanSum [] s (some c) = (s, some c) ∧
    kahanSum (xs ++ [x]) s (some c) =
      ((kahanLoop xs s c).1 + (x - (kahanLoop xs s c).2),
        some ((((kahanLoop xs s c).1 + (x - (kahanLoop xs s c).2)) - (kahanLoop xs s c).1)
          - (x - (kahanLoop xs s c).2))) := by
  refine ⟨rfl, rfl, rfl, rfl, ?_⟩
  rw [kahanSum_some, kahanLoop_append]
  rfl

end Piecewise

section Exact

variable {T : Type} [AddCommGroup T]

/-- In exact arithmetic the loop started with compensation zero ends with the
plain sum and compensation zero. -/
theorem kahanLoop_exact (xs : List T) (s : T) :
    kahanLoop xs s 0 = (s + xs.sum, 0) := by
  induction xs generalizing s with
  | nil => simp [kahanLoop]
  | cons x rest ih =>
    have hc : s + (x - 0) - s - (x - 0) = 0 := by abel
    simp only [kahanLoop, hc, ih, List.sum_cons]
    rw [sub_zero, add_assoc]

/-- C9. Over a type with exact arithmetic (a commutative additive group: the
integers, the rationals, the integers modulo `2 ^ w`), `kahanSum` with no
compensation pointer, or with a pointer to zero, returns the initial sum plus
the sum of the range, which is also what plain left-to-right accumulation
returns; the final compensation is zero. -/
theorem kahanSum_exact (xs : List T) (s : T) :
    kahanSum xs s none = (s + xs.sum, none) ∧
    kahanSum xs s (some 0) = (s + xs.sum, some 0) ∧
    kahanLoop xs s 0 = (s + xs.sum, 0) ∧
    xs.foldl (fun acc x => acc + x) s = s + xs.sum := by
  refine ⟨?_, ?_, kahanLoop_exact xs s, ?_⟩
  · rw [kahanSum_none, kahanLoop_exact]
  · rw [kahanSum_some, kahanLoop_exact]
  · induction xs generalizing s with
    | nil => simp
    | cons x rest ih => rw [List.foldl_cons, ih, List.sum_cons, add_assoc]

end Exact

/-- The exact result holds for machine integers wrapping modulo `2 ^ 32`. -/
theorem kahanSum_exact_wrapping (xs : List (ZMod (2 ^ 32))) (s : ZMod (2 ^ 32)) :
    kahanSum xs s none = (s + xs.sum, none) := by
  rw [kahanSum_none, kahanLoop_exact]

/-- A run on integers: 1 + 2 + 3 added to 10. -/
theorem kahanSum_example : kahanSum [1, 2, 3] (10 : Int) none = (16, none) := by decide

/-! ## Theorems: single precision -/

/-- One halving step of `excessBits`. -/
theorem excessBits_succ (fuel a : Nat) :
    excessBits (fuel + 1) a = if a < 2 ^ 24 then 0 else excessBits fuel (a / 2) + 1 := rfl

/-- A magnitude below `2 ^ 24` loses no bits. -/
theorem excessBits_of_lt (fuel a : Nat) (h : a < 2 ^ 24) : excessBits fuel a = 0 := by
  cases fuel with
  | zero => rfl
  | succ n => rw [excessBits_succ, if_pos h]

/-- A magnitude below `2 ^ (24 + k)` loses at most `k` bits. -/
theorem excessBits_le (fuel a k : Nat) (h : a < 2 ^ (24 + k)) : excessBits fuel a ≤ k := by
  induction fuel generalizing a k with
  | zero => exact Nat.zero_le _
  | succ n ih =>
    rw [excessBits_succ]
    split_ifs with h1
    · exact Nat.zero_le _
    · cases k with
      | zero => exact absurd h h1
      | succ j =>
        have h2 : a / 2 < 2 ^ (24 + j) := by
          rw [Nat.div_lt_iff_lt_mul (by decide)]
          calc a < 2 ^ (24 + (j + 1)) := h
            _ = 2 ^ (24 + j) * 2 := by rw [← Nat.add_assoc, Nat.pow_succ]
        exact Nat.succ_le_succ (ih _ _ h2)

/-- Magnitudes below `2 ^ 24` are representable: rounding returns them. -/
theorem roundMagnitude_of_lt (a : Nat) (h : a < 2 ^ 24) : roundMagnitude a = a := by
  simp [roundMagnitude, excessBits_of_lt _ _ h, Nat.mod_one]

/-- Below `2 ^ 27` rounding moves a magnitude by at most 8. -/
theorem roundMagnitude_near (a : Nat) (h : a < 2 ^ 27) :
    roundMagnitude a ≤ a + 8 ∧ a ≤ roundMagnitude a + 8 := by
  have he : excessBits 128 a ≤ 3 := excessBits_le 128 a 3 h
  unfold roundMagnitude
  generalize excessBits 128 a = e at he
  interval_cases e <;> dsimp only <;> norm_num <;> split_ifs <;> omega

/-- With enough fuel the exponent found leaves a significand below `2 ^ 24`, and
of at least `2 ^ 23` when any bit is lost. -/
theorem excessBits_spec (fuel a : Nat) (h : a < 2 ^ (24 + fuel)) :
    a / 2 ^ excessBits fuel a < 2 ^ 24 ∧
    (0 < excessBits fuel a → 2 ^ 23 ≤ a / 2 ^ excessBits fuel a) := by
  induction fuel generalizing a with
  | zero =>
    have h0 : excessBits 0 a = 0 := rfl
    rw [h0]
    simpa using h
  | succ n ih =>
    rw [excessBits_succ]
    split_ifs with h1
    · simpa using h1
    · have h2 : a / 2 < 2 ^ (24 + n) := by
        rw [Nat.div_lt_iff_lt_mul (by decide)]
        calc a < 2 ^ (24 + (n + 1)) := h
          _ = 2 ^ (24 + n) * 2 := by rw [← Nat.add_assoc, Nat.pow_succ]
      have hdiv : a / 2 ^ (excessBits n (a / 2) + 1) = a / 2 / 2 ^ excessBits n (a / 2) := by
        rw [Nat.pow_succ, Nat.mul_comm, Nat.div_div_eq_div_mul]
      rw [hdiv]
      refine ⟨(ih _ h2).1, fun _ => ?_⟩
      rcases Nat.eq_zero_or_pos (excessBits n (a / 2)) with hz | hp
      · rw [hz]
        simp only [pow_zero, Nat.div_one]
        omega
      · exact (ih _ h2).2 hp

/-- The rounded magnitude is a significand of at most 24 bits times a power of
two (`2 ^ 24` itself being `2 ^ 23` with the next exponent). -/
theorem roundMagnitude_representable (a : Nat) (h : a < 2 ^ 152) :
    ∃ m, roundMagnitude a = m * 2 ^ excessBits 128 a ∧ m ≤ 2 ^ 24 := by
  have hq := (excessBits_spec 128 a h).1
  unfold roundMagnitude
  dsimp only
  split_ifs
  · exact ⟨_, rfl, hq.le⟩
  · exact ⟨_, rfl, hq⟩
  · exact ⟨_, rfl, hq.le⟩
  · exact ⟨_, rfl, hq⟩

/-- The rounded magnitude is within half a unit in the last place. -/
theorem roundMagnitude_nearest (a : Nat) :
    2 * roundMagnitude a ≤ 2 * a + 2 ^ excessBits 128 a ∧
    2 * a ≤ 2 * roundMagnitude a + 2 ^ excessBits 128 a := by
  have hdm := Nat.div_add_mod a (2 ^ excessBits 128 a)
  have hr := Nat.mod_lt a (Nat.pos_pow_of_pos (excessBits 128 a) (by decide : 0 < 2))
  unfold roundMagnitude
  dsimp only
  generalize 2 ^ excessBits 128 a = p at *
  generalize a / p = q at *
  generalize a % p = r at *
  rw [Nat.mul_comm p q] at hdm
  rw [Nat.add_mul, Nat.one_mul]
  generalize q * p = s at *
  split_ifs <;> omega

/-- Integers of magnitude below `2 ^ 24` are not changed by rounding. -/
theorem roundNearestEven_of_small (z : Int) (h1 : -2 ^ 24 < z) (h2 : z < 2 ^ 24) :
    roundNearestEven z = z := by
  unfold roundNearestEven
  split_ifs with h
  · rw [roundMagnitude_of_lt _ (by omega)]
    omega
  · rw [roundMagnitude_of_lt _ (by omega)]
    omega

/-- From 0 up to `2 ^ 27` rounding moves an integer by at most 8. -/
theorem roundNearestEven_near (n : Int) (h0 : 0 ≤ n) (h : n < 2 ^ 27) :
    roundNearestEven n ≤ n + 8 ∧ n ≤ roundNearestEven n + 8 := by
  unfold roundNearestEven
  rw [if_pos h0]
  have hb := roundMagnitude_near n.toNat (by omega)
  omega

/-- Addition is exact addition followed by rounding. -/
theorem IntegralFloat.add_def (a b : IntegralFloat) :
    a + b = ⟨roundNearestEven (a.toInt + b.toInt)⟩ := rfl

/-- Subtraction is exact subtraction followed by rounding. -/
theorem IntegralFloat.sub_def (a b : IntegralFloat) :
    a - b = ⟨roundNearestEven (a.toInt - b.toInt)⟩ := rfl

/-- The value of `1`. -/
theorem IntegralFloat.one_def : (1 : IntegralFloat) = ⟨1⟩ := rfl

/-- The value of `0`. -/
theorem IntegralFloat.zero_def : (0 : IntegralFloat) = ⟨0⟩ := rfl

/-- Invariant of the loop on ones: after `n` elements the sum is `n` rounded and
the compensation is the rounding error made, so `sum - c` is exactly `n`. -/
theorem kahanLoop_ones (k : Nat) (n : Int) (h0 : 0 ≤ n) (h : n + k < 2 ^ 27) :
    kahanLoop (List.replicate k (1 : IntegralFloat))
        ⟨roundNearestEven n⟩ ⟨roundNearestEven n - n⟩ =
      (⟨roundNearestEven (n + k)⟩, ⟨roundNearestEven (n + k) - (n + k)⟩) := by
  induction k generalizing n with
  | zero => simp [kahanLoop]
  | succ k ih =>
    have hn := roundNearestEven_near n h0 (by omega)
    have hn1 := roundNearestEven_near (n + 1) (by omega) (by omega)
    have hy : (1 : IntegralFloat) - ⟨roundNearestEven n - n⟩
        = ⟨1 - (roundNearestEven n - n)⟩ := by
      rw [IntegralFloat.one_def, IntegralFloat.sub_def]
      congr 1
      exact roundNearestEven_of_small _ (by dsimp only; omega) (by dsimp only; omega)
    have ht : (⟨roundNearestEven n⟩ : IntegralFloat) + ⟨1 - (roundNearestEven n - n)⟩
        = ⟨roundNearestEven (n + 1)⟩ := by
      rw [IntegralFloat.add_def]
      congr 2
      dsimp only
      omega
    have hd : (⟨roundNearestEven (n + 1)⟩ : IntegralFloat) - ⟨roundNearestEven n⟩
        = ⟨roundNearestEven (n + 1) - roundNearestEven n⟩ := by
      rw [IntegralFloat.sub_def]
      congr 1
      exact roundNearestEven_of_small _ (by dsimp only; omega) (by dsimp only; omega)
    have hc : (⟨roundNearestEven (n + 1) - roundNearestEven n⟩ : IntegralFloat)
          - ⟨1 - (roundNearestEven n - n)⟩
        = ⟨roundNearestEven (n + 1) - (n + 1)⟩ := by
      rw [IntegralFloat.sub_def]
      congr 1
      dsimp only
      rw [roundNearestEven_of_small _ (by omega) (by omega)]
      omega
    rw [List.replicate_succ, kahanLoop]
    rw [hy, ht, hd, hc, ih (n + 1) (by omega) (by push_cast at h ⊢; omega)]
    push_cast
    rw [show n + 1 + (k : Int) = n + ((k : Int) + 1) by ring]

/-- Plain accumulation of ones is exact up to `2 ^ 24`. -/
theorem accumulate_ones_exact (k : Nat) (n : Int) (h0 : 0 ≤ n) (h : n + k ≤ 2 ^ 24) :
    (List.replicate k (1 : IntegralFloat)).foldl (fun acc x => acc + x) ⟨n⟩ = ⟨n + k⟩ := by
  induction k generalizing n with
  | zero => simp
  | succ k ih =>
    have hstep : (⟨n⟩ : IntegralFloat) + 1 = ⟨n + 1⟩ := by
      rw [IntegralFloat.one_def, IntegralFloat.add_def]
      congr 1
      dsimp only
      by_cases hlt : n + 1 < 2 ^ 24
      · exact roundNearestEven_of_small _ (by omega) hlt
      · have heq : n + 1 = 16777216 := by push_cast at h; omega
        rw [heq]
        decide
    rw [List.replicate_succ, List.foldl_cons, hstep,
      ih (n + 1) (by omega) (by push_cast at h ⊢; omega)]
    push_cast
    rw [show n + 1 + (k : Int) = n + ((k : Int) + 1) by ring]

/-- At `2 ^ 24` plain accumulation of ones stays put: `2 ^ 24 + 1` is a tie and
rounds back to `2 ^ 24`. -/
theorem accumulate_ones_stuck (k : Nat) :
    (List.replicate k (1 : IntegralFloat)).foldl (fun acc x => acc + x) ⟨16777216⟩
      = ⟨16777216⟩ := by
  induction k with
  | zero => rfl
  | succ k ih =>
    have hstep : (⟨16777216⟩ : IntegralFloat) + 1 = ⟨16777216⟩ := by decide
    rw [List.replicate_succ, List.foldl_cons, hstep, ih]

/-- C11. In single-precision arithmetic, `kahanSum` over one hundred million
elements equal to `1.0f`, with initial sum 0 and no compensation pointer,
returns exactly 100000000 (`1.0e8f`). Plain left-to-right accumulation of the
same range from 0 returns 16777216 (`2 ^ 24`), which is within one percent of
the documented `1.667e7f`. The roundoff error of the total is 0 for `kahanSum`
and 83222784 for plain accumulation. -/
theorem kahanSum_hundred_million_ones :
    kahanSum (List.replicate 100000000 (1 : IntegralFloat)) 0 none = (⟨100000000⟩, none) ∧
    (List.replicate 100000000 (1 : IntegralFloat)).foldl (fun acc x => acc + x) 0
      = ⟨16777216⟩ ∧
    |((List.replicate 100000000 (1 : IntegralFloat)).foldl (fun acc x => acc + x) 0).toInt
      - 16670000| * 100 < 16670000 ∧
    100000000 - (kahanSum (List.replicate 100000000 (1 : IntegralFloat)) 0 none).1.toInt = 0 ∧
    100000000 - ((List.replicate 100000000 (1 : IntegralFloat)).foldl
      (fun acc x => acc + x) 0).toInt = 83222784 := by
  have hk : kahanSum (List.replicate 100000000 (1 : IntegralFloat)) 0 none
      = (⟨100000000⟩, none) := by
    have h := kahanLoop_ones 100000000 0 (le_refl 0) (by norm_num)
    have r0 : roundNearestEven 0 = 0 := by decide
    have r1 : roundNearestEven (0 + (100000000 : Nat)) = 100000000 := by decide
    rw [r1, r0] at h
    show ((kahanLoop (List.replicate 100000000 (1 : IntegralFloat)) 0 0).1, none) = _
    rw [IntegralFloat.zero_def]
    simp only [sub_zero] at h
    rw [h]
  have ha : (List.replicate 100000000 (1 : IntegralFloat)).foldl (fun acc x => acc + x) 0
      = ⟨16777216⟩ := by
    rw [show (100000000 : Nat) = 16777216 + 83222784 from rfl, List.replicate_add,
      List.foldl_append, IntegralFloat.zero_def,
      accumulate_ones_exact 16777216 0 (le_refl 0) (by norm_num)]
    exact accumulate_ones_stuck 83222784
  refine ⟨hk, ha, ?_, ?_, ?_⟩
  · rw [ha]
    decide
  · rw [hk]
    decide
  · rw [ha]
    decide

end Math.Algorithms

end Magnum
